import Mathlib

/-!
Verification development for the `heladas-madrid` predictor module
(`src/predictor.py`, class `PredictorHeladas`).

Shallow embedding conventions:
* A pandas value that may be `NaN` is modelled as `Option ℚ` (`none` = `NaN`);
  the repository's data frames carry plain floats, modelled as exact rationals.
* A date is modelled by its day number `dia` (days since 1970-01-01, a
  Thursday) together with the calendar attributes the code reads through
  `Series.dt` (`month`, `dayofyear`, `isocalendar().week`); those attributes
  are carried as components of the date value itself.  `quarter` and
  `dayofweek` are derived (`quarter = (month-1)/3+1`,
  `dayofweek = (dia+3) % 7` with Monday = 0).
* A column of the frame is a series `ℕ → Option ℚ` indexed by row position;
  `Series.shift`, `Series.diff` and `shift(1).rolling(w)` (with the pandas
  default `min_periods = w`, so a window that is not fully populated yields
  `NaN`) are embedded as the combinators `shiftS`, `diffS` and `rollS` below.
* The trained models, their scalers and their persisted feature-name lists
  are external artifacts; the composite "select the feature columns, scale,
  predict" step is an opaque function that may fail (Python exceptions at
  that boundary are `Except.error msg`).
-/

/-- A calendar date: day number plus the calendar attributes that
`pandas.Series.dt` exposes and the feature builder reads. -/
structure Fecha where
  dia : ℤ
  mes : ℤ
  diaAno : ℤ
  semana : ℤ
deriving DecidableEq

/-- `pandas.Series.dt.dayofweek` (Monday = 0) for a 1970-01-01-epoch day
number (1970-01-01 was a Thursday). -/
def diaSemanaDe (d : ℤ) : ℤ := (d + 3) % 7

/-- `pandas.Series.dt.quarter` as derived from the month. -/
def trimestreDe (m : ℤ) : ℤ := (m - 1) / 3 + 1

/-- One row of the historical table `self.df`: date, target column
`TMin_..._MADRID`, and the `PREC`- and `TMax`-marked auxiliary columns. -/
structure Obs where
  fecha : Fecha
  tmin : Option ℚ
  prec : List (Option ℚ)
  tmax : List (Option ℚ)
deriving DecidableEq

/-- Arithmetic mean of a list (`Series.mean` on a NaN-free window).
Callers guard against the empty list; `ℚ` division by zero returns 0. -/
def mean (l : List ℚ) : ℚ := l.sum / l.length

/-- Minimum of a nonempty list (`Series.min` on a NaN-free window). -/
def minL : List ℚ → ℚ
  | [] => 0
  | x :: xs => xs.foldl min x

/-- Maximum of a nonempty list (`Series.max` on a NaN-free window). -/
def maxL : List ℚ → ℚ
  | [] => 0
  | x :: xs => xs.foldl max x

/-- Sample variance with `ddof = 1` (the square of `Series.std` on a
NaN-free window).  pandas stores the square root of this value; the square
root of a nonnegative rational is kept outside the frame (see
`TMIN_std_real`) so frames stay rational-valued; presence, equality and
order of the two representations coincide. -/
def sampleVar (l : List ℚ) : ℚ :=
  (l.map (fun x => (x - mean l) ^ 2)).sum / ((l.length : ℚ) - 1)

/-- Insert into a sorted list (ascending). -/
def insSorted (x : ℚ) : List ℚ → List ℚ
  | [] => [x]
  | y :: ys => if x ≤ y then x :: y :: ys else y :: insSorted x ys

/-- Ascending sort, as used by the quantile computation. -/
def ordenar (l : List ℚ) : List ℚ := l.foldr insSorted []

/-- `Series.quantile(q)` with the pandas default linear interpolation:
position `h = q·(n−1)` in the sorted values, interpolating between the
neighbouring order statistics. -/
def quantileL (q : ℚ) (l : List ℚ) : ℚ :=
  let s := ordenar l
  match s with
  | [] => 0
  | _ =>
    let h : ℚ := q * ((s.length : ℚ) - 1)
    let i : ℕ := (⌊h⌋).toNat
    let lo := s.getD i 0
    let hi := s.getD (i + 1) lo
    lo + (h - (⌊h⌋ : ℚ)) * (hi - lo)

/-- Least-squares slope of `np.polyfit(arange(n), l, 1)`: the unique
minimiser of `Σ (a·x_i + b − y_i)²` over the index `x = 0..n−1`, in closed
form `(n·Σxy − Σx·Σy) / (n·Σx² − (Σx)²)`.  Well-defined (nonzero
denominator) for `n ≥ 2`; total on `ℚ`. -/
def pendienteOLS (l : List ℚ) : ℚ :=
  let n : ℚ := l.length
  let xs : List ℚ := (List.range l.length).map (fun i => (i : ℚ))
  let sx := xs.sum
  let sy := l.sum
  let sxy := ((xs.zip l).map (fun p => p.1 * p.2)).sum
  let sxx := (xs.map (fun x => x * x)).sum
  (n * sxy - sx * sy) / (n * sxx - sx * sx)

/-- `calcular_tendencia` (predictor.py lines 102-110) as it is reachable
through `rolling(window).apply`: the function receives a full window (the
pandas default `min_periods = window` suppresses the call otherwise), so
the series is NaN-free here and the `isna().all()` branch is vacuous; the
`len < 5` branch is kept; `np.polyfit` cannot fail on a NaN-free window
with `n ≥ 2` distinct abscissae, so the `except: return 0` branch is
unreachable. -/
def calcularTendencia (l : List ℚ) : ℚ :=
  if l.length < 5 then 0 else pendienteOLS l

/-- A column of the frame, indexed by row position; `none` is `NaN`
(also past the end of the frame). -/
abbrev SerieQ := ℕ → Option ℚ

/-- `Series.shift(k)`: row `t` reads row `t − k`; the first `k` rows
become `NaN`. -/
def shiftS (k : ℕ) (s : SerieQ) : SerieQ :=
  fun t => if k ≤ t then s (t - k) else none

/-- NaN-propagating subtraction of two scalar cells. -/
def optSub (a b : Option ℚ) : Option ℚ :=
  match a, b with
  | some x, some y => some (x - y)
  | _, _ => none

/-- `Series.diff(k)`: current value minus the value `k` rows back, `NaN`
when either is missing. -/
def diffS (k : ℕ) (s : SerieQ) : SerieQ :=
  fun t => optSub (s t) (shiftS k s t)

/-- All-present check: `some` list of values iff no cell is `NaN`. -/
def sequenceO : List (Option ℚ) → Option (List ℚ)
  | [] => some []
  | none :: _ => none
  | some x :: xs => (sequenceO xs).map (x :: ·)

/-- The length-`w` window of `s` ending at row `t`, or `none` when the
window sticks out of the frame or contains a `NaN` — exactly the windows
that `rolling(window=w)` (default `min_periods = w`) evaluates. -/
def ventana (w : ℕ) (s : SerieQ) (t : ℕ) : Option (List ℚ) :=
  if w ≤ t + 1 then sequenceO ((List.range w).map (fun j => s (t + 1 - w + j))) else none

/-- `rolling(window=w).f()`: apply the statistic to every fully populated
window, `NaN` elsewhere. -/
def rollS (w : ℕ) (f : List ℚ → ℚ) (s : SerieQ) (t : ℕ) : Option ℚ :=
  (ventana w s t).map f

/-- Mean of the present cells of a row (`DataFrame.mean(axis=1)`,
skipna): `NaN` only when every cell is `NaN`. -/
def meanSkipna (l : List (Option ℚ)) : Option ℚ :=
  match l.filterMap id with
  | [] => none
  | vs => some (mean vs)

/-- Min of the present cells of a row (`DataFrame.min(axis=1)`, skipna). -/
def minSkipna (l : List (Option ℚ)) : Option ℚ :=
  match l.filterMap id with
  | [] => none
  | vs => some (minL vs)

/-- Max of the present cells of a row (`DataFrame.max(axis=1)`, skipna). -/
def maxSkipna (l : List (Option ℚ)) : Option ℚ :=
  match l.filterMap id with
  | [] => none
  | vs => some (maxL vs)

/-- Sample variance (square of `DataFrame.std(axis=1)`, `ddof = 1`,
skipna): `NaN` when fewer than two cells are present. -/
def varSkipna (l : List (Option ℚ)) : Option ℚ :=
  let vs := l.filterMap id
  if vs.length < 2 then none else some (sampleVar vs)

example : mean [3, 4, 5] = 4 := by with_unfolding_all rfl
example : quantileL (1/4) [1, 2, 3, 4, 5] = 2 := by with_unfolding_all rfl
example : quantileL (1/4) [1, 2, 3, 4] = 7/4 := by with_unfolding_all rfl
example : pendienteOLS [2, 4, 6] = 2 := by with_unfolding_all rfl
example : shiftS 1 (fun i => if i < 3 then some (i : ℚ) else none) 0 = none := by decide
example : rollS 3 mean (shiftS 1 (fun i => if i < 6 then some ((i : ℚ) + 1) else none)) 5
    = some 4 := by with_unfolding_all rfl
example : rollS 3 mean (shiftS 1 (fun i => if i < 6 then some ((i : ℚ) + 1) else none)) 2
    = none := by with_unfolding_all rfl

/-- Rolling mean column `TMIN_ma_w` (predictor.py line 91):
`shift(1).rolling(window).mean()`. -/
def TMIN_ma (w : ℕ) (s : SerieQ) : SerieQ := fun t => rollS w mean (shiftS 1 s) t

/-- Rolling standard-deviation column `TMIN_std_w` (line 92):
`shift(1).rolling(window).std()`.  Represented by the ddof-1 sample
variance (its square); `TMIN_std_real` recovers the pandas value. -/
def TMIN_std (w : ℕ) (s : SerieQ) : SerieQ := fun t => rollS w sampleVar (shiftS 1 s) t

/-- The pandas value of the `TMIN_std_w` column: square root of the
stored sample variance. -/
noncomputable def TMIN_std_real (w : ℕ) (s : SerieQ) (t : ℕ) : Option ℝ :=
  (TMIN_std w s t).map (fun q => Real.sqrt (q : ℝ))

/-- Rolling minimum column `TMIN_min_w` (line 93). -/
def TMIN_min (w : ℕ) (s : SerieQ) : SerieQ := fun t => rollS w minL (shiftS 1 s) t

/-- Rolling maximum column `TMIN_max_w` (line 94). -/
def TMIN_max (w : ℕ) (s : SerieQ) : SerieQ := fun t => rollS w maxL (shiftS 1 s) t

/-- Rolling trend column `TMIN_tendencia_w` (lines 112-115):
`shift(1).rolling(window).apply(calcular_tendencia)`. -/
def TMIN_tendencia (w : ℕ) (s : SerieQ) : SerieQ :=
  fun t => rollS w calcularTendencia (shiftS 1 s) t

/-- Rolling range column `TMIN_rango_w` (lines 118-119): the elementwise
difference of the `TMIN_max_w` and `TMIN_min_w` columns. -/
def TMIN_rango (w : ℕ) (s : SerieQ) : SerieQ :=
  fun t => optSub (TMIN_max w s t) (TMIN_min w s t)

/-- Rolling 25th-percentile column `TMIN_q25_w` (line 123). -/
def TMIN_q25 (w : ℕ) (s : SerieQ) : SerieQ :=
  fun t => rollS w (quantileL (1/4)) (shiftS 1 s) t

/-- Rolling 75th-percentile column `TMIN_q75_w` (line 124). -/
def TMIN_q75 (w : ℕ) (s : SerieQ) : SerieQ :=
  fun t => rollS w (quantileL (3/4)) (shiftS 1 s) t

/-- One row of the feature table built by `_crear_features_temperatura`
(predictor.py lines 64-129).  The input columns (`Fecha`, target) and the
always-present calendar columns come first; then every derived column in
source order.  The cyclical sine/cosine columns are fixed functions
(`sin/cos (2π·x/period)`) of the stored calendar fields `Mes`, `DiaAno`,
`Semana`, `DiaSemana` and are never `NaN`, so they are represented by
those fields. -/
structure FilaTemp where
  fecha : Fecha
  tmin : ℚ
  Mes : ℤ
  DiaAno : ℤ
  Trimestre : ℤ
  DiaSemana : ℤ
  Semana : ℤ
  TMIN_lag_1 : Option ℚ
  TMIN_lag_2 : Option ℚ
  TMIN_lag_3 : Option ℚ
  TMIN_lag_7 : Option ℚ
  TMIN_lag_14 : Option ℚ
  TMIN_lag_21 : Option ℚ
  TMIN_lag_30 : Option ℚ
  TMIN_ma_3 : Option ℚ
  TMIN_std_3 : Option ℚ
  TMIN_min_3 : Option ℚ
  TMIN_max_3 : Option ℚ
  TMIN_ma_7 : Option ℚ
  TMIN_std_7 : Option ℚ
  TMIN_min_7 : Option ℚ
  TMIN_max_7 : Option ℚ
  TMIN_ma_14 : Option ℚ
  TMIN_std_14 : Option ℚ
  TMIN_min_14 : Option ℚ
  TMIN_max_14 : Option ℚ
  TMIN_ma_30 : Option ℚ
  TMIN_std_30 : Option ℚ
  TMIN_min_30 : Option ℚ
  TMIN_max_30 : Option ℚ
  TMIN_diff_1 : Option ℚ
  TMIN_diff_7 : Option ℚ
  TMIN_diff_30 : Option ℚ
  TMIN_tendencia_7 : Option ℚ
  TMIN_tendencia_14 : Option ℚ
  TMIN_tendencia_30 : Option ℚ
  TMIN_rango_7 : Option ℚ
  TMIN_rango_14 : Option ℚ
  TMIN_rango_30 : Option ℚ
  TMIN_q25_7 : Option ℚ
  TMIN_q75_7 : Option ℚ
  TMIN_q25_14 : Option ℚ
  TMIN_q75_14 : Option ℚ
  TMIN_q25_30 : Option ℚ
  TMIN_q75_30 : Option ℚ
  TMIN_aceleracion : Option ℚ
deriving DecidableEq

/-- The feature row of `_crear_features_temperatura` at row position `t`,
for a frame whose row `t` has date `fe` and target `v` and whose target
column is the series `s`. -/
def mkFilaTemp (fe : Fecha) (v : ℚ) (s : SerieQ) (t : ℕ) : FilaTemp where
  fecha := fe
  tmin := v
  Mes := fe.mes
  DiaAno := fe.diaAno
  Trimestre := trimestreDe fe.mes
  DiaSemana := diaSemanaDe fe.dia
  Semana := fe.semana
  TMIN_lag_1 := shiftS 1 s t
  TMIN_lag_2 := shiftS 2 s t
  TMIN_lag_3 := shiftS 3 s t
  TMIN_lag_7 := shiftS 7 s t
  TMIN_lag_14 := shiftS 14 s t
  TMIN_lag_21 := shiftS 21 s t
  TMIN_lag_30 := shiftS 30 s t
  TMIN_ma_3 := TMIN_ma 3 s t
  TMIN_std_3 := TMIN_std 3 s t
  TMIN_min_3 := TMIN_min 3 s t
  TMIN_max_3 := TMIN_max 3 s t
  TMIN_ma_7 := TMIN_ma 7 s t
  TMIN_std_7 := TMIN_std 7 s t
  TMIN_min_7 := TMIN_min 7 s t
  TMIN_max_7 := TMIN_max 7 s t
  TMIN_ma_14 := TMIN_ma 14 s t
  TMIN_std_14 := TMIN_std 14 s t
  TMIN_min_14 := TMIN_min 14 s t
  TMIN_max_14 := TMIN_max 14 s t
  TMIN_ma_30 := TMIN_ma 30 s t
  TMIN_std_30 := TMIN_std 30 s t
  TMIN_min_30 := TMIN_min 30 s t
  TMIN_max_30 := TMIN_max 30 s t
  TMIN_diff_1 := diffS 1 s t
  TMIN_diff_7 := diffS 7 s t
  TMIN_diff_30 := diffS 30 s t
  TMIN_tendencia_7 := TMIN_tendencia 7 s t
  TMIN_tendencia_14 := TMIN_tendencia 14 s t
  TMIN_tendencia_30 := TMIN_tendencia 30 s t
  TMIN_rango_7 := TMIN_rango 7 s t
  TMIN_rango_14 := TMIN_rango 14 s t
  TMIN_rango_30 := TMIN_rango 30 s t
  TMIN_q25_7 := TMIN_q25 7 s t
  TMIN_q75_7 := TMIN_q75 7 s t
  TMIN_q25_14 := TMIN_q25 14 s t
  TMIN_q75_14 := TMIN_q75 14 s t
  TMIN_q25_30 := TMIN_q25 30 s t
  TMIN_q75_30 := TMIN_q75 30 s t
  TMIN_aceleracion := diffS 1 (diffS 1 s) t

/-- The target column of a `(Fecha, target)` frame, by row position. -/
def serieDe (rows : List (Fecha × ℚ)) : SerieQ :=
  fun i => (rows.get? i).map Prod.snd

/-- `_crear_features_temperatura` on a frame of `(Fecha, target)` rows
(the target already `dropna`-filtered, as at both call sites,
predictor.py lines 212-214 and 231-239). -/
def crearFeaturesTemperatura (rows : List (Fecha × ℚ)) : List FilaTemp :=
  List.ofFn (fun i : Fin rows.length => mkFilaTemp (rows.get i).1 (rows.get i).2 (serieDe rows) i)

/-- The row survives `df_temp.dropna()` (predictor.py line 215): every
derived column is present.  The `Fecha`, target, calendar and cyclical
columns are never `NaN`.  Checked in source column order. -/
def FilaTemp.completa (f : FilaTemp) : Bool :=
  f.TMIN_lag_1.isSome && f.TMIN_lag_2.isSome && f.TMIN_lag_3.isSome &&
  f.TMIN_lag_7.isSome && f.TMIN_lag_14.isSome && f.TMIN_lag_21.isSome &&
  f.TMIN_lag_30.isSome &&
  f.TMIN_ma_3.isSome && f.TMIN_std_3.isSome && f.TMIN_min_3.isSome && f.TMIN_max_3.isSome &&
  f.TMIN_ma_7.isSome && f.TMIN_std_7.isSome && f.TMIN_min_7.isSome && f.TMIN_max_7.isSome &&
  f.TMIN_ma_14.isSome && f.TMIN_std_14.isSome && f.TMIN_min_14.isSome && f.TMIN_max_14.isSome &&
  f.TMIN_ma_30.isSome && f.TMIN_std_30.isSome && f.TMIN_min_30.isSome && f.TMIN_max_30.isSome &&
  f.TMIN_diff_1.isSome && f.TMIN_diff_7.isSome && f.TMIN_diff_30.isSome &&
  f.TMIN_tendencia_7.isSome && f.TMIN_tendencia_14.isSome && f.TMIN_tendencia_30.isSome &&
  f.TMIN_rango_7.isSome && f.TMIN_rango_14.isSome && f.TMIN_rango_30.isSome &&
  f.TMIN_q25_7.isSome && f.TMIN_q75_7.isSome && f.TMIN_q25_14.isSome && f.TMIN_q75_14.isSome &&
  f.TMIN_q25_30.isSome && f.TMIN_q75_30.isSome &&
  f.TMIN_aceleracion.isSome

/-- One row of the frame handed to `_crear_features_helada`: date, target
(already `dropna`-filtered on the target, line 232) and the `PREC` and
`TMax` auxiliary columns. -/
structure HObs where
  fecha : Fecha
  tmin : ℚ
  prec : List (Option ℚ)
  tmax : List (Option ℚ)
deriving DecidableEq

/-- `Series.fillna(mean)` on one column (predictor.py lines 235-237): the
`isna().any()` guard makes a NaN-free column pass through unchanged, which
filling with the mean also does.  A fully-NaN column has a `NaN` mean and
is modelled as unchanged (no property below depends on this edge case). -/
def fillCol (xs : List (Option ℚ)) : List (Option ℚ) :=
  match xs.filterMap id with
  | [] => xs
  | vs => xs.map (fun x => some (x.getD (mean vs)))

/-- The fill step of `predecir` over the `PREC` and `TMax` columns of the
helada frame (`nP`/`nT` columns respectively). -/
def rellenar (nP nT : ℕ) (rows : List HObs) : List HObs :=
  let precCols := (List.range nP).map (fun j => fillCol (rows.map (fun r => r.prec.getD j none)))
  let tmaxCols := (List.range nT).map (fun j => fillCol (rows.map (fun r => r.tmax.getD j none)))
  rows.enum.map (fun p =>
    { p.2 with
      prec := precCols.map (fun c => c.getD p.1 none)
      tmax := tmaxCols.map (fun c => c.getD p.1 none) })

/-- One row of the feature table built by `_crear_features_helada`
(predictor.py lines 131-178): the temperature features plus the
precipitation, max-temperature and interaction columns.  Columns guarded
by `len(columnas_prec) > 0` / `len(columnas_tmax) > 0` are absent
(`none`, empty list) when the respective column count is zero; the raw
auxiliary columns are dropped at the end (lines 174-176) and so never
appear here. -/
structure FilaHelada where
  base : FilaTemp
  PREC_lag1 : List (Option ℚ)
  PREC_promedio : Option ℚ
  PREC_max : Option ℚ
  PREC_std : Option ℚ
  PREC_promedio_lag2 : Option ℚ
  PREC_promedio_lag3 : Option ℚ
  PREC_promedio_lag7 : Option ℚ
  PREC_suma_3 : Option ℚ
  PREC_suma_7 : Option ℚ
  PREC_suma_14 : Option ℚ
  TMAX_lag1 : List (Option ℚ)
  TMAX_promedio : Option ℚ
  TMAX_std : Option ℚ
  Rango_termico_lag1 : Option ℚ
  TMAX_ma_3 : Option ℚ
  TMAX_ma_7 : Option ℚ
  TMAX_ma_14 : Option ℚ
  TMAX_diff_1 : Option ℚ
  TMax_TMin_ratio : Option ℚ
  PREC_binaria : Option ℤ
deriving DecidableEq

/-- Column `j` of the `PREC` block of a helada frame, by row position. -/
def colPrec (rows : List HObs) (j : ℕ) : SerieQ :=
  fun i => (rows.get? i).bind (fun r => r.prec.getD j none)

/-- Column `j` of the `TMax` block of a helada frame, by row position. -/
def colTmax (rows : List HObs) (j : ℕ) : SerieQ :=
  fun i => (rows.get? i).bind (fun r => r.tmax.getD j none)

/-- The `PREC_promedio` column (line 141): row-wise skipna mean of the
lag-1 `PREC` columns. -/
def precPromedio (nP : ℕ) (rows : List HObs) : SerieQ :=
  fun i => meanSkipna ((List.range nP).map (fun j => shiftS 1 (colPrec rows j) i))

/-- The `TMAX_promedio` column (line 157): row-wise skipna mean of the
lag-1 `TMax` columns. -/
def tmaxPromedio (nT : ℕ) (rows : List HObs) : SerieQ :=
  fun i => meanSkipna ((List.range nT).map (fun j => shiftS 1 (colTmax rows j) i))

/-- The feature row of `_crear_features_helada` at row position `t`. -/
def mkFilaHelada (nP nT : ℕ) (rows : List HObs) (fe : Fecha) (v : ℚ) (t : ℕ) : FilaHelada :=
  let s : SerieQ := fun i => (rows.get? i).map HObs.tmin
  let pLag : List (Option ℚ) := (List.range nP).map (fun j => shiftS 1 (colPrec rows j) t)
  let tLag : List (Option ℚ) := (List.range nT).map (fun j => shiftS 1 (colTmax rows j) t)
  let pProm := precPromedio nP rows
  let tProm := tmaxPromedio nT rows
  { base := mkFilaTemp fe v s t
    PREC_lag1 := pLag
    PREC_promedio := if nP = 0 then none else pProm t
    PREC_max := if nP = 0 then none else maxSkipna pLag
    PREC_std := if nP = 0 then none else varSkipna pLag
    PREC_promedio_lag2 := if nP = 0 then none else shiftS 2 pProm t
    PREC_promedio_lag3 := if nP = 0 then none else shiftS 3 pProm t
    PREC_promedio_lag7 := if nP = 0 then none else shiftS 7 pProm t
    PREC_suma_3 := if nP = 0 then none else rollS 3 List.sum (shiftS 1 pProm) t
    PREC_suma_7 := if nP = 0 then none else rollS 7 List.sum (shiftS 1 pProm) t
    PREC_suma_14 := if nP = 0 then none else rollS 14 List.sum (shiftS 1 pProm) t
    TMAX_lag1 := tLag
    TMAX_promedio := if nT = 0 then none else tProm t
    TMAX_std := if nT = 0 then none else varSkipna tLag
    Rango_termico_lag1 := if nT = 0 then none else optSub (tProm t) (shiftS 1 s t)
    TMAX_ma_3 := if nT = 0 then none else rollS 3 mean (shiftS 1 tProm) t
    TMAX_ma_7 := if nT = 0 then none else rollS 7 mean (shiftS 1 tProm) t
    TMAX_ma_14 := if nT = 0 then none else rollS 14 mean (shiftS 1 tProm) t
    TMAX_diff_1 := if nT = 0 then none else diffS 1 tProm t
    TMax_TMin_ratio :=
      if nT = 0 then none else
        match tProm t, shiftS 1 s t with
        | some a, some b => some (a / (|b| + 1))
        | _, _ => none
    PREC_binaria :=
      if nP = 0 then none else
        some (match pProm t with
              | some v => if 0 < v then (1 : ℤ) else 0
              | none => 0) }

/-- `_crear_features_helada` over a helada frame (after the target
`dropna` and the auxiliary fill). -/
def crearFeaturesHelada (nP nT : ℕ) (rows : List HObs) : List FilaHelada :=
  List.ofFn (fun i : Fin rows.length =>
    mkFilaHelada nP nT rows (rows.get i).fecha (rows.get i).tmin i)

/-- The row survives `df_helada.dropna()` (predictor.py line 240): every
column present in the frame — the temperature features plus the columns
added for the counts `nP`, `nT` of `PREC`/`TMax` source columns. -/
def FilaHelada.completa (nP nT : ℕ) (f : FilaHelada) : Bool :=
  f.base.completa &&
  (decide (nP = 0) ||
    (f.PREC_lag1.all Option.isSome && f.PREC_promedio.isSome && f.PREC_max.isSome &&
     f.PREC_std.isSome && f.PREC_promedio_lag2.isSome && f.PREC_promedio_lag3.isSome &&
     f.PREC_promedio_lag7.isSome && f.PREC_suma_3.isSome && f.PREC_suma_7.isSome &&
     f.PREC_suma_14.isSome)) &&
  (decide (nT = 0) ||
    (f.TMAX_lag1.all Option.isSome && f.TMAX_promedio.isSome && f.TMAX_std.isSome &&
     f.Rango_termico_lag1.isSome && f.TMAX_ma_3.isSome && f.TMAX_ma_7.isSome &&
     f.TMAX_ma_14.isSome && f.TMAX_diff_1.isSome)) &&
  (decide (nT = 0) || f.TMax_TMin_ratio.isSome) &&
  (decide (nP = 0) || f.PREC_binaria.isSome)

/-- The risk-tier chain of `predecir` (predictor.py lines 262-281): tier,
display emoji and map colour as functions of the predicted temperature. -/
def determinarRiesgo (t : ℚ) : String × String × String :=
  if t ≤ -2 then ("MUY ALTO", "🔴", "red")
  else if t ≤ 0 then ("ALTO", "🟠", "orange")
  else if t ≤ 2 then ("MEDIO", "🟡", "yellow")
  else if t ≤ 4 then ("BAJO", "🟢", "green")
  else ("MUY BAJO", "🟢", "green")

/-- Score-to-probability conversion (lines 254-255):
`1 / (1 + exp(−score)) * 100`. -/
noncomputable def probabilidadHelada (s : ℝ) : ℝ :=
  1 / (1 + Real.exp (-s)) * 100

/-- Binary frost label (line 257): `1 if score > 0 else 0`. -/
def heladaPredicha01 (s : ℚ) : ℤ :=
  if 0 < s then 1 else 0

/-- The success payload of `predecir` (predictor.py lines 295-311). -/
structure Resultado where
  fecha_consulta : ℤ
  fecha_prediccion : ℤ
  temperatura_predicha : ℚ
  probabilidad_helada : ℝ
  helada_predicha : ℤ
  riesgo : String
  emoji_riesgo : String
  color_mapa : String
  temp_ayer : Option ℚ
  temp_promedio_7d : Option ℚ
  temp_minima_7d : Option ℚ
  temp_maxima_7d : Option ℚ
  cambio_esperado : Option ℚ
  historial_30d : List (Fecha × Option ℚ)
  timestamp : ℤ

/-- What a `predecir` call hands back: either the success payload or an
`{"error": message}` dictionary.  The function is total — a caught
exception becomes `errorDict`, never a raised one. -/
inductive Salida where
  | ok (r : Resultado)
  | errorDict (msg : String)

/-- The external model boundary: "select the persisted feature-name
columns from the last usable row, scale, run the estimator", for each of
the two bundles.  These steps can raise (missing column, scaler/model
failure); a raise is `Except.error msg`. -/
structure Modelos where
  tempPredict : FilaTemp → Except String ℚ
  heladaScore : FilaHelada → Except String ℚ

/-- The mutable service state: the historical table and the one-slot
cache (`self._ultima_prediccion`, `self._fecha_ultima_prediccion`),
plus the column counts `len(self.columnas_prec)`, `len(self.columnas_tmax)`
fixed at load time. -/
structure Estado where
  df : List Obs
  nPrec : ℕ
  nTmax : ℕ
  ultimaPrediccion : Option Resultado
  fechaUltimaPrediccion : Option ℤ

/-- `df['Fecha'].max()` as a day number; 0 for the empty frame (where the
pandas `NaT` cutoff likewise selects no rows). -/
def maxDia (df : List Obs) : ℤ :=
  match df with
  | [] => 0
  | x :: xs => xs.foldl (fun a o => max a o.fecha.dia) x.fecha.dia

/-- `df['Fecha'].min()` as a day number; 0 for the empty frame. -/
def minDia (df : List Obs) : ℤ :=
  match df with
  | [] => 0
  | x :: xs => xs.foldl (fun a o => min a o.fecha.dia) x.fecha.dia

/-- `l.tail(n)`: the last `n` entries. -/
def colaL (n : ℕ) (l : List α) : List α := l.drop (l.length - n)

/-- Lines 198-204: resolve the query date (`df['Fecha'].max()` when
unspecified) and slice the history up to it. -/
def sliceHasta (df : List Obs) (fq : Option ℤ) : List Obs :=
  df.filter (fun o => decide (o.fecha.dia ≤ fq.getD (maxDia df)))

/-- Lines 212-213: project the slice onto `(Fecha, target)` and drop the
rows with a missing target. -/
def dfTempDe (dfHastaHoy : List Obs) : List (Fecha × ℚ) :=
  dfHastaHoy.filterMap (fun o => o.tmin.map (fun v => (o.fecha, v)))

/-- Lines 214-215: the temperature feature table after `dropna()`. -/
def usablesTDe (dfHastaHoy : List Obs) : List FilaTemp :=
  (crearFeaturesTemperatura (dfTempDe dfHastaHoy)).filter FilaTemp.completa

/-- Lines 231-239: the helada frame — slice restricted to the target and
auxiliary columns, target `dropna`, auxiliary `fillna(mean)`. -/
def dfHelDe (nP nT : ℕ) (dfHastaHoy : List Obs) : List HObs :=
  rellenar nP nT (dfHastaHoy.filterMap (fun o =>
    o.tmin.map (fun v => ({ fecha := o.fecha, tmin := v, prec := o.prec,
                            tmax := o.tmax } : HObs))))

/-- Lines 239-240: the helada feature table after `dropna()`. -/
def usablesHDe (nP nT : ℕ) (dfHastaHoy : List Obs) : List FilaHelada :=
  (crearFeaturesHelada nP nT (dfHelDe nP nT dfHastaHoy)).filter (FilaHelada.completa nP nT)

/-- Lines 253-311: risk tier, descriptive statistics of the slice, and
the result dictionary. -/
noncomputable def armarResultado (dfHastaHoy : List Obs) (fc ahora : ℤ)
    (tempPredicha scoreHelada : ℚ) : Resultado :=
  { fecha_consulta := fc
    fecha_prediccion := fc + 1
    temperatura_predicha := tempPredicha
    probabilidad_helada := probabilidadHelada (scoreHelada : ℝ)
    helada_predicha := heladaPredicha01 scoreHelada
    riesgo := (determinarRiesgo tempPredicha).1
    emoji_riesgo := (determinarRiesgo tempPredicha).2.1
    color_mapa := (determinarRiesgo tempPredicha).2.2
    temp_ayer := (dfHastaHoy.getLast?).bind Obs.tmin
    temp_promedio_7d := meanSkipna (colaL 7 (dfHastaHoy.map Obs.tmin))
    temp_minima_7d := minSkipna (colaL 7 (dfHastaHoy.map Obs.tmin))
    temp_maxima_7d := maxSkipna (colaL 7 (dfHastaHoy.map Obs.tmin))
    cambio_esperado := ((dfHastaHoy.getLast?).bind Obs.tmin).map (fun a => tempPredicha - a)
    historial_30d := colaL 30 (dfHastaHoy.map (fun o => (o.fecha, o.tmin)))
    timestamp := ahora }

/-- The body of the `try` block of `predecir` (predictor.py lines
196-317), excluding the cache write: resolve the query date, slice, check
the 50-row minimum, build and drop-filter both feature tables, call both
model bundles, classify, and assemble the payload.  `Except.ok` carries
the normal return value (success payload or early `{"error": ...}`
return); `Except.error` is an uncaught exception inside the block, which
in this embedding can only arise at the opaque model boundary. -/
noncomputable def cuerpo (M : Modelos) (nP nT : ℕ) (df : List Obs) (fq : Option ℤ)
    (ahora : ℤ) : Except String Salida :=
  if (sliceHasta df fq).length < 50 then Except.ok (Salida.errorDict "Datos insuficientes")
  else
    match (usablesTDe (sliceHasta df fq)).getLast? with
    | none => Except.ok (Salida.errorDict "No se pudieron crear features de temperatura")
    | some ultimaFila =>
      match M.tempPredict ultimaFila with
      | Except.error e => Except.error e
      | Except.ok tempPredicha =>
        match (usablesHDe nP nT (sliceHasta df fq)).getLast? with
        | none => Except.ok (Salida.errorDict "No se pudieron crear features de helada")
        | some ultimaFilaHelada =>
          match M.heladaScore ultimaFilaHelada with
          | Except.error e => Except.error e
          | Except.ok scoreHelada =>
            Except.ok (Salida.ok (armarResultado (sliceHasta df fq) (fq.getD (maxDia df))
              ahora tempPredicha scoreHelada))

/-- A fresh (cache-missing) run of `predecir`: run the `try` body, catch
any exception as `{"error": str(e)}` (lines 319-323), and store the
result in the cache only on the success path (lines 313-315). -/
noncomputable def predecirNuevo (M : Modelos) (st : Estado) (hoy ahora : ℤ)
    (fq : Option ℤ) : Salida × Estado :=
  match cuerpo M st.nPrec st.nTmax st.df fq ahora with
  | Except.error e => (Salida.errorDict e, st)
  | Except.ok (Salida.errorDict m) => (Salida.errorDict m, st)
  | Except.ok (Salida.ok r) =>
    (Salida.ok r, { st with ultimaPrediccion := some r, fechaUltimaPrediccion := some hoy })

/-- `predecir` (predictor.py lines 180-323).  `hoy` is the wall-clock
calendar date `datetime.now().date()`, `ahora` the wall-clock timestamp;
`fq` the optional `fecha_consulta`.  If the cached prediction was
computed today (and the cached dictionary is truthy, i.e. present), it is
returned unchanged; otherwise the body runs. -/
noncomputable def predecir (M : Modelos) (st : Estado) (hoy ahora : ℤ)
    (fq : Option ℤ) : Salida × Estado :=
  match st.fechaUltimaPrediccion, st.ultimaPrediccion with
  | some d, some r =>
    if d = hoy then (Salida.ok r, st) else predecirNuevo M st hoy ahora fq
  | some _, none => predecirNuevo M st hoy ahora fq
  | none, _ => predecirNuevo M st hoy ahora fq

/-- The summary record of `estadisticas_generales` (lines 329-342). -/
structure Estadisticas where
  total_registros : ℕ
  fecha_inicio : ℤ
  fecha_fin : ℤ
  temp_promedio : Option ℚ
  temp_minima : Option ℚ
  temp_maxima : Option ℚ
  heladas_totales : ℕ
  porcentaje_heladas : ℚ
deriving DecidableEq

/-- Does this row count as a frost: target present and `≤ 0` (a `NaN`
target compares false in `(df[target] <= 0)`). -/
def esHelada (o : Obs) : Bool :=
  match o.tmin with
  | some x => decide (x ≤ 0)
  | none => false

/-- `estadisticas_generales` (predictor.py lines 329-342), a pure
function of the service state: it only reads `self.df` and touches
neither the frame nor the cache slots. -/
def estadisticasGenerales (st : Estado) : Estadisticas :=
  let heladasTotales := (st.df.filter esHelada).length
  { total_registros := st.df.length
    fecha_inicio := minDia st.df
    fecha_fin := maxDia st.df
    temp_promedio := meanSkipna (st.df.map Obs.tmin)
    temp_minima := minSkipna (st.df.map Obs.tmin)
    temp_maxima := maxSkipna (st.df.map Obs.tmin)
    heladas_totales := heladasTotales
    porcentaje_heladas := (heladasTotales : ℚ) / (st.df.length : ℚ) * 100 }

/-! Concrete inputs used by witnesses and counterexamples. -/

/-- A date with day number `i` (the other calendar attributes are
irrelevant to the properties below). -/
def fechaEx (i : ℤ) : Fecha := { dia := i, mes := 1, diaAno := 1, semana := 1 }

/-- A model pair that always succeeds with score/prediction 0. -/
def M0 : Modelos := { tempPredict := fun _ => Except.ok 0, heladaScore := fun _ => Except.ok 0 }

/-- A model pair whose temperature bundle raises. -/
def Mboom : Modelos := { tempPredict := fun _ => Except.error "boom", heladaScore := fun _ => Except.ok 0 }

/-- Ten observations, exactly three of which have target `≤ 0`. -/
def ex10 : List Obs :=
  [⟨fechaEx 0, some 5, [], []⟩, ⟨fechaEx 1, some (-1), [], []⟩, ⟨fechaEx 2, some 0, [], []⟩,
   ⟨fechaEx 3, some 3, [], []⟩, ⟨fechaEx 4, some 4, [], []⟩, ⟨fechaEx 5, some 6, [], []⟩,
   ⟨fechaEx 6, some 7, [], []⟩, ⟨fechaEx 7, some 8, [], []⟩, ⟨fechaEx 8, some 9, [], []⟩,
   ⟨fechaEx 9, some (-2), [], []⟩]

/-- Service state holding `ex10` with an empty cache. -/
def ex10St : Estado := { df := ex10, nPrec := 0, nTmax := 0,
                         ultimaPrediccion := none, fechaUltimaPrediccion := none }

/-- A 45-row history (dates 0..44, all targets present). -/
def exDf45 : List Obs :=
  (List.range 45).map (fun i => { fecha := fechaEx i, tmin := some 1, prec := [], tmax := [] })

/-- State holding the 45-row history with an empty cache. -/
def st45 : Estado := { df := exDf45, nPrec := 0, nTmax := 0,
                       ultimaPrediccion := none, fechaUltimaPrediccion := none }

/-- A 50-row history (dates 0..49) whose target is present from row 18 on
(32 target rows, so the temperature feature table has usable rows). -/
def exDf50 : List Obs :=
  (List.range 50).map (fun i =>
    { fecha := fechaEx i, tmin := if 18 ≤ i then some 1 else none, prec := [], tmax := [] })

/-- State holding the 50-row history with an empty cache. -/
def stBoom : Estado := { df := exDf50, nPrec := 0, nTmax := 0,
                         ultimaPrediccion := none, fechaUltimaPrediccion := none }

/-- A 50-row history (dates 0..49) whose target is present only on the
last 10 rows, so no temperature feature row survives the drop. -/
def exDfC2 : List Obs :=
  (List.range 50).map (fun i =>
    { fecha := fechaEx i, tmin := if 40 ≤ i then some 1 else none, prec := [], tmax := [] })

/-- State holding that history with an empty cache. -/
def stC2 : Estado := { df := exDfC2, nPrec := 0, nTmax := 0,
                       ultimaPrediccion := none, fechaUltimaPrediccion := none }

/-- A concrete success payload, as stored in the cache slot. -/
noncomputable def r0 : Resultado :=
  { fecha_consulta := 0, fecha_prediccion := 1, temperatura_predicha := 5,
    probabilidad_helada := 10, helada_predicha := 0, riesgo := "MUY BAJO",
    emoji_riesgo := "🟢", color_mapa := "green", temp_ayer := some 4,
    temp_promedio_7d := some 4, temp_minima_7d := some 4, temp_maxima_7d := some 4,
    cambio_esperado := some 1, historial_30d := [], timestamp := 0 }

/-- State with an empty history but a prediction cached on day 7. -/
noncomputable def stCache : Estado :=
  { df := [], nPrec := 0, nTmax := 0,
    ultimaPrediccion := some r0, fechaUltimaPrediccion := some 7 }

/-- Target series `1, 2, 3, 4, 5, 6, NaN, NaN, ...`. -/
def exS8 : SerieQ := fun i => if i < 6 then some ((i : ℚ) + 1) else none

/-- A 10-row constant-target frame. -/
def exRows6 : List (Fecha × ℚ) := (List.range 10).map (fun i => (fechaEx i, 1))

/-- Three rows with targets `1, 2, 3`. -/
def exC1a : List (Fecha × ℚ) := [(fechaEx 0, 1), (fechaEx 1, 2), (fechaEx 2, 3)]

/-- The same three rows with the last target perturbed to `4`. -/
def exC1b : List (Fecha × ℚ) := [(fechaEx 0, 1), (fechaEx 1, 2), (fechaEx 2, 4)]

/-! Claim theorems. -/

/-- C4: the risk classification is a total, deterministic function of the
predicted temperature with exactly the boundaries `t ≤ −2 ↦ "MUY ALTO"`,
`−2 < t ≤ 0 ↦ "ALTO"`, `0 < t ≤ 2 ↦ "MEDIO"`, `2 < t ≤ 4 ↦ "BAJO"`,
`4 < t ↦ "MUY BAJO"` (totality and determinism hold by construction:
`determinarRiesgo` is a function on all of `ℚ`). -/
theorem c4_riesgo (t : ℚ) :
    (t ≤ -2 → (determinarRiesgo t).1 = "MUY ALTO") ∧
    (-2 < t → t ≤ 0 → (determinarRiesgo t).1 = "ALTO") ∧
    (0 < t → t ≤ 2 → (determinarRiesgo t).1 = "MEDIO") ∧
    (2 < t → t ≤ 4 → (determinarRiesgo t).1 = "BAJO") ∧
    (4 < t → (determinarRiesgo t).1 = "MUY BAJO") := by
  unfold determinarRiesgo
  refine ⟨fun h => ?_, fun h1 h2 => ?_, fun h1 h2 => ?_, fun h1 h2 => ?_, fun h => ?_⟩
  · rw [if_pos h]
  · rw [if_neg (by linarith), if_pos h2]
  · rw [if_neg (by linarith), if_neg (by linarith), if_pos h2]
  · rw [if_neg (by linarith), if_neg (by linarith), if_neg (by linarith), if_pos h2]
  · rw [if_neg (by linarith), if_neg (by linarith), if_neg (by linarith), if_neg (by linarith)]

/-- Witness for C4 at the claim's sample points: `-2 ↦ MUY ALTO`,
`0 ↦ ALTO`, `0.001 ↦ MEDIO`, `4 ↦ BAJO`, `4.001 ↦ MUY BAJO`. -/
theorem c4_riesgo_witness :
    (determinarRiesgo (-2)).1 = "MUY ALTO" ∧ (determinarRiesgo 0).1 = "ALTO" ∧
    (determinarRiesgo (1/1000)).1 = "MEDIO" ∧ (determinarRiesgo 4).1 = "BAJO" ∧
    (determinarRiesgo (4001/1000)).1 = "MUY BAJO" :=
  ⟨(c4_riesgo (-2)).1 (by norm_num),
   (c4_riesgo 0).2.1 (by norm_num) (by norm_num),
   (c4_riesgo (1/1000)).2.2.1 (by norm_num) (by norm_num),
   (c4_riesgo 4).2.2.2.1 (by norm_num) (by norm_num),
   (c4_riesgo (4001/1000)).2.2.2.2 (by norm_num)⟩

/-- C7: the frost probability is `1/(1+e^(−s))·100`, so a score of 0
gives exactly 50, probabilities of opposite scores sum to 100, and the
binary frost label is 1 exactly when the score is positive. -/
theorem c7_probabilidad :
    probabilidadHelada 0 = 50 ∧
    (∀ s : ℝ, probabilidadHelada s + probabilidadHelada (-s) = 100) ∧
    (∀ s : ℚ, heladaPredicha01 s = 1 ↔ 0 < s) := by
  refine ⟨?_, fun s => ?_, fun s => ?_⟩
  · unfold probabilidadHelada
    rw [neg_zero, Real.exp_zero]
    norm_num
  · unfold probabilidadHelada
    have h2 : (0 : ℝ) < Real.exp s := Real.exp_pos s
    rw [neg_neg, Real.exp_neg]
    have h3 : (1 : ℝ) + Real.exp s ≠ 0 := by positivity
    have h4 : Real.exp s ≠ 0 := ne_of_gt h2
    have h5 : (1 : ℝ) + (Real.exp s)⁻¹ ≠ 0 := by positivity
    field_simp
    ring
  · unfold heladaPredicha01
    split <;> rename_i h <;> simp [h]

/-- C9: `estadisticas_generales` counts as frost exactly the rows with
target present and `≤ 0`, reports `porcentaje_heladas =
heladas_totales / total_registros · 100`, and on the 10-row dataset with
exactly 3 such rows returns `heladas_totales = 3`,
`porcentaje_heladas = 30`.  It is a function of the state that returns
only the summary record, so the store and the cache are untouched. -/
theorem c9_estadisticas :
    (∀ st : Estado,
      (estadisticasGenerales st).heladas_totales = (st.df.filter esHelada).length ∧
      (estadisticasGenerales st).total_registros = st.df.length ∧
      (estadisticasGenerales st).porcentaje_heladas =
        ((estadisticasGenerales st).heladas_totales : ℚ) /
          ((estadisticasGenerales st).total_registros : ℚ) * 100) ∧
    ex10St.df.length = 10 ∧ (ex10St.df.filter esHelada).length = 3 ∧
    (estadisticasGenerales ex10St).heladas_totales = 3 ∧
    (estadisticasGenerales ex10St).porcentaje_heladas = 30 := by
  refine ⟨fun st => ⟨rfl, rfl, rfl⟩, by decide, by decide, by decide, ?_⟩
  with_unfolding_all decide

/-! Congruence of the feature builder in its target series: every
combinator reads the series at positions `≤ t` only. -/

theorem shiftS_congr {s1 s2 : SerieQ} (k t : ℕ) (hs : ∀ i, i ≤ t → s1 i = s2 i) :
    shiftS k s1 t = shiftS k s2 t := by
  unfold shiftS
  split
  · exact hs (t - k) (Nat.sub_le t k)
  · rfl

theorem diffS_congr {s1 s2 : SerieQ} (k t : ℕ) (hs : ∀ i, i ≤ t → s1 i = s2 i) :
    diffS k s1 t = diffS k s2 t := by
  unfold diffS
  rw [hs t le_rfl, shiftS_congr k t hs]

theorem ventana_congr {s1 s2 : SerieQ} (w t : ℕ) (hs : ∀ i, i ≤ t → s1 i = s2 i) :
    ventana w s1 t = ventana w s2 t := by
  unfold ventana
  split
  · rename_i hw
    congr 1
    refine List.map_congr_left (fun j hj => ?_)
    have hj' : j < w := List.mem_range.mp hj
    exact hs (t + 1 - w + j) (by omega)
  · rfl

theorem rollS_congr {s1 s2 : SerieQ} (w : ℕ) (f : List ℚ → ℚ) (t : ℕ)
    (hs : ∀ i, i ≤ t → s1 i = s2 i) : rollS w f s1 t = rollS w f s2 t := by
  unfold rollS
  rw [ventana_congr w t hs]

theorem mkFilaTemp_congr (fe : Fecha) (v : ℚ) {s1 s2 : SerieQ} (t : ℕ)
    (hs : ∀ i, i ≤ t → s1 i = s2 i) : mkFilaTemp fe v s1 t = mkFilaTemp fe v s2 t := by
  have hsh : ∀ i, i ≤ t → shiftS 1 s1 i = shiftS 1 s2 i :=
    fun i hi => shiftS_congr 1 i (fun j hj => hs j (hj.trans hi))
  have hd : ∀ i, i ≤ t → diffS 1 s1 i = diffS 1 s2 i :=
    fun i hi => diffS_congr 1 i (fun j hj => hs j (hj.trans hi))
  unfold mkFilaTemp TMIN_ma TMIN_std TMIN_min TMIN_max TMIN_tendencia TMIN_rango TMIN_q25 TMIN_q75
  congr 1
  all_goals first
    | rfl
    | exact shiftS_congr _ _ hs
    | exact diffS_congr _ _ hs
    | exact diffS_congr _ _ hd
    | exact rollS_congr _ _ _ hsh
    | exact congr (congrArg optSub (rollS_congr _ _ _ hsh)) (rollS_congr _ _ _ hsh)

theorem crearFeaturesTemperatura_get? (rows : List (Fecha × ℚ)) (t : ℕ) (ht : t < rows.length) :
    (crearFeaturesTemperatura rows).get? t =
      some (mkFilaTemp (rows.get ⟨t, ht⟩).1 (rows.get ⟨t, ht⟩).2 (serieDe rows) t) := by
  unfold crearFeaturesTemperatura
  rw [List.get?_ofFn]
  unfold List.ofFnNthVal
  rw [dif_pos ht]

/-- C1 (amended): a feature row of the temperature feature table depends
only on its own date and on the target values at positions `≤ t` — rows
after `t` (even the frame length) are irrelevant.  The original claim is
stronger — independence also of `target[t]` itself — and is refuted by
`c1_counterexample`: the difference and acceleration columns read
`target[t]`. -/
theorem c1_no_leakage (r1 r2 : List (Fecha × ℚ)) (t : ℕ)
    (ht1 : t < r1.length) (ht2 : t < r2.length)
    (hf : (r1.get ⟨t, ht1⟩).1 = (r2.get ⟨t, ht2⟩).1)
    (hs : ∀ i, i ≤ t → (r1.get? i).map Prod.snd = (r2.get? i).map Prod.snd) :
    (crearFeaturesTemperatura r1).get? t = (crearFeaturesTemperatura r2).get? t := by
  rw [crearFeaturesTemperatura_get? r1 t ht1, crearFeaturesTemperatura_get? r2 t ht2]
  have hv : (r1.get ⟨t, ht1⟩).2 = (r2.get ⟨t, ht2⟩).2 := by
    have h := hs t le_rfl
    rw [List.get?_eq_get ht1, List.get?_eq_get ht2] at h
    simpa using h
  rw [hf, hv]
  exact congrArg some (mkFilaTemp_congr _ _ t hs)

/-- Counterexample to C1 as stated: two three-row frames that agree
everywhere except in `target[2]` (same dates, same earlier targets)
produce different feature rows at `t = 2` — `TMIN_diff_1` reads
`target[t]`. -/
theorem c1_counterexample :
    exC1a.get? 0 = exC1b.get? 0 ∧ exC1a.get? 1 = exC1b.get? 1 ∧
    (exC1a.get? 2).map Prod.fst = (exC1b.get? 2).map Prod.fst ∧
    ((crearFeaturesTemperatura exC1a).get? 2).map FilaTemp.TMIN_diff_1 = some (some 1) ∧
    ((crearFeaturesTemperatura exC1b).get? 2).map FilaTemp.TMIN_diff_1 = some (some 2) ∧
    (crearFeaturesTemperatura exC1a).get? 2 ≠ (crearFeaturesTemperatura exC1b).get? 2 := by
  with_unfolding_all decide

/-- Witness for C1 (amended): perturbing the frame *after* row `t = 1`
(here even appending a row) leaves feature row 1 unchanged. -/
theorem c1_no_leakage_witness :
    (crearFeaturesTemperatura exC1a).get? 1 = (crearFeaturesTemperatura exC1b).get? 1 :=
  c1_no_leakage exC1a exC1b 1 (by decide) (by decide) (by decide)
    (by intro i hi; interval_cases i <;> rfl)

/-! Alignment of `shift(1).rolling(w)` windows with the target values
strictly before the row, and elementary bounds of the window statistics. -/

theorem sequenceO_map_some (l : List ℚ) : sequenceO (l.map some) = some l := by
  induction l with
  | nil => rfl
  | cons a as ih => simp [sequenceO, ih]

theorem range_map_eq_map_some {g : ℕ → Option ℚ} {vs : List ℚ} {w : ℕ}
    (hlen : vs.length = w) (hg : ∀ j, j < w → g j = vs.get? j) :
    (List.range w).map g = vs.map some := by
  apply List.ext
  intro n
  rw [List.get?_map, List.get?_map]
  by_cases hn : n < w
  · rw [List.get?_range hn]
    have hval : vs.get? n = some (vs.get ⟨n, by omega⟩) := List.get?_eq_get (by omega)
    simp only [Option.map_some']
    rw [hg n hn, hval]
    rfl
  · rw [List.get?_eq_none.mpr (by simpa using Nat.le_of_not_lt hn),
        List.get?_eq_none.mpr (by omega)]
    rfl

theorem ventana_shift_eq {s : SerieQ} {w t : ℕ} {vs : List ℚ} (ht : w ≤ t)
    (hlen : vs.length = w) (hvs : ∀ j, j < w → s (t - w + j) = vs.get? j) :
    ventana w (shiftS 1 s) t = some vs := by
  unfold ventana
  rw [if_pos (by omega)]
  have hmap : (List.range w).map (fun j => shiftS 1 s (t + 1 - w + j)) = vs.map some := by
    refine range_map_eq_map_some hlen (fun j hj => ?_)
    show shiftS 1 s (t + 1 - w + j) = vs.get? j
    unfold shiftS
    rw [if_pos (by omega)]
    have he : t + 1 - w + j - 1 = t - w + j := by omega
    rw [he]
    exact hvs j hj
  rw [hmap, sequenceO_map_some]

theorem rollS_shift_eq {s : SerieQ} {w t : ℕ} {vs : List ℚ} (f : List ℚ → ℚ) (ht : w ≤ t)
    (hlen : vs.length = w) (hvs : ∀ j, j < w → s (t - w + j) = vs.get? j) :
    rollS w f (shiftS 1 s) t = some (f vs) := by
  unfold rollS
  rw [ventana_shift_eq ht hlen hvs]
  rfl

theorem foldl_min_le_init (xs : List ℚ) (x : ℚ) : xs.foldl min x ≤ x := by
  induction xs generalizing x with
  | nil => exact le_rfl
  | cons a as ih => exact (ih (min x a)).trans (min_le_left x a)

theorem foldl_min_le_mem (xs : List ℚ) (x y : ℚ) (hy : y ∈ xs) : xs.foldl min x ≤ y := by
  induction xs generalizing x with
  | nil => cases hy
  | cons a as ih =>
    rcases List.mem_cons.mp hy with rfl | hy'
    · exact (foldl_min_le_init as (min x y)).trans (min_le_right x y)
    · exact ih (min x a) hy'

theorem minL_le {l : List ℚ} {y : ℚ} (hy : y ∈ l) : minL l ≤ y := by
  cases l with
  | nil => cases hy
  | cons a as =>
    rcases List.mem_cons.mp hy with rfl | hy'
    · exact foldl_min_le_init as y
    · exact foldl_min_le_mem as a y hy'

theorem init_le_foldl_max (xs : List ℚ) (x : ℚ) : x ≤ xs.foldl max x := by
  induction xs generalizing x with
  | nil => exact le_rfl
  | cons a as ih => exact (le_max_left x a).trans (ih (max x a))

theorem mem_le_foldl_max (xs : List ℚ) (x y : ℚ) (hy : y ∈ xs) : y ≤ xs.foldl max x := by
  induction xs generalizing x with
  | nil => cases hy
  | cons a as ih =>
    rcases List.mem_cons.mp hy with rfl | hy'
    · exact (le_max_right x y).trans (init_le_foldl_max as (max x y))
    · exact ih (max x a) hy'

theorem le_maxL {l : List ℚ} {y : ℚ} (hy : y ∈ l) : y ≤ maxL l := by
  cases l with
  | nil => cases hy
  | cons a as =>
    rcases List.mem_cons.mp hy with rfl | hy'
    · exact init_le_foldl_max as y
    · exact mem_le_foldl_max as a y hy'

theorem mul_length_le_sum (l : List ℚ) (m : ℚ) (h : ∀ y ∈ l, m ≤ y) :
    m * l.length ≤ l.sum := by
  induction l with
  | nil => simp
  | cons a as ih =>
    have h1 := ih (fun y hy => h y (List.mem_cons_of_mem a hy))
    have h2 := h a (List.mem_cons_self a as)
    simp only [List.sum_cons, List.length_cons]
    push_cast
    nlinarith

theorem sum_le_mul_length (l : List ℚ) (m : ℚ) (h : ∀ y ∈ l, y ≤ m) :
    l.sum ≤ m * l.length := by
  induction l with
  | nil => simp
  | cons a as ih =>
    have h1 := ih (fun y hy => h y (List.mem_cons_of_mem a hy))
    have h2 := h a (List.mem_cons_self a as)
    simp only [List.sum_cons, List.length_cons]
    push_cast
    nlinarith

theorem minL_le_mean {l : List ℚ} (hne : l ≠ []) : minL l ≤ mean l := by
  have hlen : (0 : ℚ) < l.length := by
    have := List.length_pos.mpr hne
    exact_mod_cast this
  rw [mean, le_div_iff hlen]
  exact mul_length_le_sum l (minL l) (fun y hy => minL_le hy)

theorem mean_le_maxL {l : List ℚ} (hne : l ≠ []) : mean l ≤ maxL l := by
  have hlen : (0 : ℚ) < l.length := by
    have := List.length_pos.mpr hne
    exact_mod_cast this
  rw [mean, div_le_iff hlen]
  exact sum_le_mul_length l (maxL l) (fun y hy => le_maxL hy)

theorem tendencia_early {s : SerieQ} {w u : ℕ} (hu : u < w) :
    TMIN_tendencia w s u = none := by
  unfold TMIN_tendencia rollS ventana
  by_cases h : w ≤ u + 1
  · rw [if_pos h]
    obtain ⟨v, rfl⟩ : ∃ v, w = v + 1 := ⟨w - 1, by omega⟩
    rw [List.range_succ_eq_map]
    simp only [List.map_cons]
    have h0 : u + 1 - (v + 1) + 0 = 0 := by omega
    rw [h0]
    show Option.map calcularTendencia (sequenceO (shiftS 1 s 0 :: _)) = none
    have hsh : shiftS 1 s 0 = none := by
      unfold shiftS
      rw [if_neg (by omega)]
    rw [hsh]
    rfl
  · rw [if_neg h]
    rfl

/-- C8: for a fully populated window — target values `vs` at positions
`t−w, …, t−1`, i.e. strictly before row `t` — the rolling columns
`TMIN_ma_w`, `TMIN_std_w`, `TMIN_min_w`, `TMIN_max_w` at row `t` equal
the mean, standard deviation (as stored variance, and as its pandas
square root), min and max of `vs`; moreover `min ≤ mean ≤ max` and the
`TMIN_rango_w` column equals `max − min` exactly.  `w` is arbitrary
positive, covering the source's windows 3, 7, 14, 30. -/
theorem c8_rolling (s : SerieQ) (w t : ℕ) (vs : List ℚ) (hw : 0 < w) (ht : w ≤ t)
    (hlen : vs.length = w) (hvs : ∀ j, j < w → s (t - w + j) = vs.get? j) :
    TMIN_ma w s t = some (mean vs) ∧
    TMIN_std w s t = some (sampleVar vs) ∧
    TMIN_std_real w s t = some (Real.sqrt ((sampleVar vs : ℚ) : ℝ)) ∧
    TMIN_min w s t = some (minL vs) ∧
    TMIN_max w s t = some (maxL vs) ∧
    TMIN_rango w s t = some (maxL vs - minL vs) ∧
    minL vs ≤ mean vs ∧ mean vs ≤ maxL vs := by
  have hne : vs ≠ [] := by
    intro h
    rw [h] at hlen
    simp at hlen
    omega
  have hma : TMIN_ma w s t = some (mean vs) := rollS_shift_eq mean ht hlen hvs
  have hstd : TMIN_std w s t = some (sampleVar vs) := rollS_shift_eq sampleVar ht hlen hvs
  have hmin : TMIN_min w s t = some (minL vs) := rollS_shift_eq minL ht hlen hvs
  have hmax : TMIN_max w s t = some (maxL vs) := rollS_shift_eq maxL ht hlen hvs
  refine ⟨hma, hstd, ?_, hmin, hmax, ?_, minL_le_mean hne, mean_le_maxL hne⟩
  · unfold TMIN_std_real
    rw [hstd]
    rfl
  · unfold TMIN_rango
    rw [hmin, hmax]
    rfl

/-- Witness for C8 at `w = 3`, `t = 5` on the series `1, 2, 3, 4, 5, 6`:
the window strictly before row 5 is `[3, 4, 5]`. -/
theorem c8_rolling_witness :
    TMIN_ma 3 exS8 5 = some (mean [3, 4, 5]) ∧
    TMIN_std 3 exS8 5 = some (sampleVar [3, 4, 5]) ∧
    TMIN_std_real 3 exS8 5 = some (Real.sqrt ((sampleVar [3, 4, 5] : ℚ) : ℝ)) ∧
    TMIN_min 3 exS8 5 = some (minL [3, 4, 5]) ∧
    TMIN_max 3 exS8 5 = some (maxL [3, 4, 5]) ∧
    TMIN_rango 3 exS8 5 = some (maxL [3, 4, 5] - minL [3, 4, 5]) ∧
    minL [3, 4, 5] ≤ mean [3, 4, 5] ∧ mean [3, 4, 5] ≤ maxL [3, 4, 5] :=
  c8_rolling exS8 3 5 [3, 4, 5] (by decide) (by decide) (by decide)
    (by intro j hj; interval_cases j <;> with_unfolding_all rfl)

/-- C6 (amended): for a fully populated window (target values `vs` at
positions `t−w, …, t−1`), the rolling trend column `TMIN_tendencia_w`
equals the ordinary-least-squares slope of `vs` against the index
`0..w−1` (the `len < 5` guard of `calcular_tendencia` is inert for the
source's windows `w ≥ 7`, hence the hypothesis `5 ≤ w`); for rows `t < w`
the window is not fully populated and the column is *missing* (`NaN`,
so the row is dropped) — not 0 as the original claim states, which
`c6_counterexample` refutes. -/
theorem c6_tendencia (s : SerieQ) (w t : ℕ) (vs : List ℚ) (hw : 5 ≤ w) (ht : w ≤ t)
    (hlen : vs.length = w) (hvs : ∀ j, j < w → s (t - w + j) = vs.get? j) :
    TMIN_tendencia w s t = some (pendienteOLS vs) ∧
    (∀ u, u < w → TMIN_tendencia w s u = none) := by
  constructor
  · have h := rollS_shift_eq calcularTendencia ht hlen hvs
    unfold TMIN_tendencia
    rw [h, calcularTendencia]
    rw [if_neg (by omega)]
  · exact fun u hu => tendencia_early hu

/-- Witness for C6 (amended) at `w = 5`, `t = 5` on the series
`1, 2, 3, 4, 5, 6`: the window strictly before row 5 is `[1, 2, 3, 4, 5]`. -/
theorem c6_tendencia_witness :
    TMIN_tendencia 5 exS8 5 = some (pendienteOLS [1, 2, 3, 4, 5]) ∧
    (∀ u, u < 5 → TMIN_tendencia 5 exS8 u = none) :=
  c6_tendencia exS8 5 5 [1, 2, 3, 4, 5] (by decide) (by decide) (by decide)
    (by intro j hj; interval_cases j <;> with_unfolding_all rfl)

/-- Counterexample to C6 as stated: on a 10-row frame, row `t = 3` has
only 3 target values before it (fewer than 5), and the claim says the
`w = 7` trend feature is 0 there; the code instead yields a missing value
(the row is later dropped). -/
theorem c6_counterexample :
    ((crearFeaturesTemperatura exRows6).get? 3).map FilaTemp.TMIN_tendencia_7 = some none ∧
    ((crearFeaturesTemperatura exRows6).get? 3).map FilaTemp.TMIN_tendencia_7 ≠
      some (some 0) := by
  with_unfolding_all decide

/-! Behaviour of the cache branch and of the fresh-run state update. -/

theorem predecir_cacheHit (M : Modelos) (st : Estado) (hoy ahora : ℤ) (fq : Option ℤ)
    (r : Resultado) (h1 : st.fechaUltimaPrediccion = some hoy)
    (h2 : st.ultimaPrediccion = some r) :
    predecir M st hoy ahora fq = (Salida.ok r, st) := by
  unfold predecir
  rw [h1, h2]
  simp

theorem predecir_cacheMiss (M : Modelos) (st : Estado) (hoy ahora : ℤ) (fq : Option ℤ)
    (hmiss : st.fechaUltimaPrediccion ≠ some hoy ∨ st.ultimaPrediccion = none) :
    predecir M st hoy ahora fq = predecirNuevo M st hoy ahora fq := by
  unfold predecir
  cases hm : st.fechaUltimaPrediccion with
  | none => rfl
  | some d =>
    cases hu : st.ultimaPrediccion with
    | none => rfl
    | some r =>
      rcases hmiss with h | h
      · rw [hm] at h
        show (if d = hoy then (Salida.ok r, st) else predecirNuevo M st hoy ahora fq) = _
        rw [if_neg (fun hd => h (by rw [hd]))]
      · rw [hu] at h
        cases h

theorem predecirNuevo_error (M : Modelos) (st : Estado) (hoy ahora : ℤ) (fq : Option ℤ)
    (m : String) (h : (predecirNuevo M st hoy ahora fq).1 = Salida.errorDict m) :
    (predecirNuevo M st hoy ahora fq).2 = st := by
  unfold predecirNuevo at h ⊢
  cases hc : cuerpo M st.nPrec st.nTmax st.df fq ahora with
  | error e => rfl
  | ok s =>
    cases s with
    | errorDict m' => rfl
    | ok r =>
      rw [hc] at h
      simp at h

theorem predecirNuevo_ok (M : Modelos) (st : Estado) (hoy ahora : ℤ) (fq : Option ℤ)
    (r : Resultado) (h : (predecirNuevo M st hoy ahora fq).1 = Salida.ok r) :
    (predecirNuevo M st hoy ahora fq).2 =
      { st with ultimaPrediccion := some r, fechaUltimaPrediccion := some hoy } := by
  unfold predecirNuevo at h ⊢
  cases hc : cuerpo M st.nPrec st.nTmax st.df fq ahora with
  | error e =>
    rw [hc] at h
    simp at h
  | ok s =>
    cases s with
    | errorDict m' =>
      rw [hc] at h
      simp at h
    | ok r' =>
      rw [hc] at h
      simp only [Salida.ok.injEq] at h
      rw [h]

/-! The possible outcomes of the `try` body. -/

theorem cuerpo_lt50 (M : Modelos) (nP nT : ℕ) (df : List Obs) (fq : Option ℤ) (ahora : ℤ)
    (h : (sliceHasta df fq).length < 50) :
    cuerpo M nP nT df fq ahora = Except.ok (Salida.errorDict "Datos insuficientes") := by
  unfold cuerpo
  rw [if_pos h]

theorem cuerpo_error_fuente (M : Modelos) (nP nT : ℕ) (df : List Obs) (fq : Option ℤ)
    (ahora : ℤ) (e : String) (h : cuerpo M nP nT df fq ahora = Except.error e) :
    (∃ f, M.tempPredict f = Except.error e) ∨ (∃ f, M.heladaScore f = Except.error e) := by
  unfold cuerpo at h
  split at h
  · cases h
  · split at h
    · cases h
    · rename_i ultimaFila heqT
      split at h
      · rename_i e1 heq1
        cases h
        exact Or.inl ⟨ultimaFila, heq1⟩
      · split at h
        · cases h
        · rename_i ultimaH heqH
          split at h
          · rename_i e2 heq2
            cases h
            exact Or.inr ⟨ultimaH, heq2⟩
          · cases h

theorem cuerpo_ge50_errorDict (M : Modelos) (nP nT : ℕ) (df : List Obs) (fq : Option ℤ)
    (ahora : ℤ) (m : String) (hge : 50 ≤ (sliceHasta df fq).length)
    (h : cuerpo M nP nT df fq ahora = Except.ok (Salida.errorDict m)) :
    m = "No se pudieron crear features de temperatura" ∨
    m = "No se pudieron crear features de helada" := by
  unfold cuerpo at h
  rw [if_neg (by omega)] at h
  split at h
  · cases h
    exact Or.inl rfl
  · split at h
    · cases h
    · split at h
      · cases h
        exact Or.inr rfl
      · split at h
        · cases h
        · cases h

/-- C3: when the `try` body of `predecir` raises (`Except.error e`, which
in this embedding arises exactly at the opaque scaler/model boundary of
steps 5 and 7 — every other step of 3–9 is total), the exception is
caught and converted to the `{"error": e}` payload, and the state is left
unchanged; `predecir` itself is a total function (its result type is
`Salida × Estado`, not an exception monad), so no exception ever reaches
the caller. -/
theorem c3_excepciones (M : Modelos) (st : Estado) (hoy ahora : ℤ) (fq : Option ℤ)
    (e : String)
    (hmiss : st.fechaUltimaPrediccion ≠ some hoy ∨ st.ultimaPrediccion = none)
    (h : cuerpo M st.nPrec st.nTmax st.df fq ahora = Except.error e) :
    predecir M st hoy ahora fq = (Salida.errorDict e, st) := by
  rw [predecir_cacheMiss M st hoy ahora fq hmiss]
  unfold predecirNuevo
  rw [h]

set_option maxRecDepth 100000 in
/-- Witness for C3: on a 50-row history whose temperature bundle raises
`"boom"`, `predecir` returns `{"error": "boom"}` with the state intact. -/
theorem c3_excepciones_witness :
    predecir Mboom stBoom 7 0 none = (Salida.errorDict "boom", stBoom) :=
  c3_excepciones Mboom stBoom 7 0 none "boom" (Or.inr rfl) (by with_unfolding_all rfl)

/-- C10: when `predecir` returns an error payload the cache slots are
left exactly as they were; and whenever the state changes at all, the
call returned a success payload `r` and the new state is the old one with
`r` cached under today's date — so only successful results are ever
stored. -/
theorem c10_cache_intacta (M : Modelos) (st : Estado) (hoy ahora : ℤ) (fq : Option ℤ) :
    (∀ m, (predecir M st hoy ahora fq).1 = Salida.errorDict m →
      (predecir M st hoy ahora fq).2 = st) ∧
    (∀ r, (predecir M st hoy ahora fq).1 = Salida.ok r →
      (predecir M st hoy ahora fq).2 = st ∨
      (predecir M st hoy ahora fq).2 =
        { st with ultimaPrediccion := some r, fechaUltimaPrediccion := some hoy }) := by
  by_cases hhit : ∃ r', st.fechaUltimaPrediccion = some hoy ∧ st.ultimaPrediccion = some r'
  · obtain ⟨r', h1, h2⟩ := hhit
    rw [predecir_cacheHit M st hoy ahora fq r' h1 h2]
    refine ⟨fun m h => ?_, fun r h => Or.inl rfl⟩
    simp at h
  · have hmiss : st.fechaUltimaPrediccion ≠ some hoy ∨ st.ultimaPrediccion = none := by
      cases hu : st.ultimaPrediccion with
      | none => exact Or.inr rfl
      | some r' =>
        refine Or.inl (fun h1 => hhit ⟨r', h1, hu⟩)
    rw [predecir_cacheMiss M st hoy ahora fq hmiss]
    exact ⟨fun m h => predecirNuevo_error M st hoy ahora fq m h,
           fun r h => Or.inr (predecirNuevo_ok M st hoy ahora fq r h)⟩

set_option maxRecDepth 100000 in
/-- Witness for C10: the `"Datos insuficientes"` error on a 45-row
history leaves the (empty) cache untouched. -/
theorem c10_cache_intacta_witness :
    (predecir M0 st45 7 0 none).2 = st45 :=
  (c10_cache_intacta M0 st45 7 0 none).1 "Datos insuficientes" (by with_unfolding_all rfl)

/-- C2 (amended): the same-day cache guarantees identical answers only
once a call has *succeeded*: (a) a same-day cached result `r` is returned
unchanged, with the state untouched, for any `queryDate`; (b) after any
cache-missing call that returns a success `(ok r)`, every later call on
the same wall-clock day returns exactly `ok r` whatever its `queryDate`.
The original unconditional claim is refuted by `c2_counterexample`: a
call that returns an error payload caches nothing, and a second same-day
call can return a different value. -/
theorem c2_cache_mismo_dia (M : Modelos) (st : Estado) (hoy : ℤ) :
    (∀ ahora fq (r : Resultado), st.fechaUltimaPrediccion = some hoy →
      st.ultimaPrediccion = some r →
      predecir M st hoy ahora fq = (Salida.ok r, st)) ∧
    (∀ ahora1 ahora2 fq1 fq2 (r : Resultado) (st' : Estado),
      (st.fechaUltimaPrediccion ≠ some hoy ∨ st.ultimaPrediccion = none) →
      predecir M st hoy ahora1 fq1 = (Salida.ok r, st') →
      (predecir M st' hoy ahora2 fq2).1 = Salida.ok r) := by
  refine ⟨fun ahora fq r h1 h2 => predecir_cacheHit M st hoy ahora fq r h1 h2,
          fun ahora1 ahora2 fq1 fq2 r st' hmiss h => ?_⟩
  rw [predecir_cacheMiss M st hoy ahora1 fq1 hmiss] at h
  have h1 : (predecirNuevo M st hoy ahora1 fq1).1 = Salida.ok r := by rw [h]
  have h2 : (predecirNuevo M st hoy ahora1 fq1).2 = st' := by rw [h]
  have hst' : st' = { st with ultimaPrediccion := some r, fechaUltimaPrediccion := some hoy } := by
    rw [← h2, predecirNuevo_ok M st hoy ahora1 fq1 r h1]
  subst hst'
  rw [predecir_cacheHit M _ hoy ahora2 fq2 r rfl rfl]

/-- Witness for C2 (amended), part (a): a state with a result cached on
day 7 returns it unchanged on day 7, for an arbitrary `queryDate`. -/
theorem c2_cache_mismo_dia_witness :
    predecir M0 stCache 7 0 (some 3) = (Salida.ok r0, stCache) :=
  (c2_cache_mismo_dia M0 stCache 7).1 0 (some 3) r0 rfl rfl

set_option maxRecDepth 400000 in
/-- Counterexample to C2 as stated: two same-wall-clock-day calls (day 7)
on the same service state, differing only in `queryDate`, return
*different* values — the first fails the 50-row check (`queryDate`
day 44 slices 45 rows) and caches nothing, the second (`queryDate`
day 49 slices all 50 rows, only 10 of them with a target) fails feature
construction with a different message. -/
theorem c2_counterexample :
    (predecir M0 stC2 7 0 (some 44)).1 = Salida.errorDict "Datos insuficientes" ∧
    (predecir M0 ((predecir M0 stC2 7 0 (some 44)).2) 7 1 (some 49)).1 =
      Salida.errorDict "No se pudieron crear features de temperatura" ∧
    Salida.errorDict "Datos insuficientes" ≠
      Salida.errorDict "No se pudieron crear features de temperatura" := by
  refine ⟨by with_unfolding_all rfl, by with_unfolding_all rfl, fun h => ?_⟩
  injection h with h'
  exact absurd h' (by decide)

/-- C5 (amended): on a cache-missing call (no result cached today — the
original claim fails on a warm cache, see `c5_counterexample`), a slice
of fewer than 50 rows makes `predecir` return exactly
`{"error": "Datos insuficientes"}` without touching the state (and hence
without model inference, which only happens on the success path); with 50
or more rows that error payload is impossible, provided the opaque model
boundary does not itself raise with that exact message (the `except`
handler would faithfully wrap such an exception text). -/
theorem c5_datos (M : Modelos) (st : Estado) (hoy ahora : ℤ) (fq : Option ℤ)
    (hmiss : st.fechaUltimaPrediccion ≠ some hoy ∨ st.ultimaPrediccion = none) :
    ((sliceHasta st.df fq).length < 50 →
      predecir M st hoy ahora fq = (Salida.errorDict "Datos insuficientes", st)) ∧
    (50 ≤ (sliceHasta st.df fq).length →
      (∀ f, M.tempPredict f ≠ Except.error "Datos insuficientes") →
      (∀ f, M.heladaScore f ≠ Except.error "Datos insuficientes") →
      (predecir M st hoy ahora fq).1 ≠ Salida.errorDict "Datos insuficientes") := by
  rw [predecir_cacheMiss M st hoy ahora fq hmiss]
  constructor
  · intro hlt
    unfold predecirNuevo
    rw [cuerpo_lt50 M st.nPrec st.nTmax st.df fq ahora hlt]
  · intro hge hT hH hcontra
    unfold predecirNuevo at hcontra
    cases hc : cuerpo M st.nPrec st.nTmax st.df fq ahora with
    | error e =>
      rw [hc] at hcontra
      simp only [Salida.errorDict.injEq] at hcontra
      subst hcontra
      rcases cuerpo_error_fuente M st.nPrec st.nTmax st.df fq ahora _ hc with ⟨f, hf⟩ | ⟨f, hf⟩
      · exact hT f hf
      · exact hH f hf
    | ok s =>
      cases s with
      | errorDict m =>
        rw [hc] at hcontra
        simp only [Salida.errorDict.injEq] at hcontra
        subst hcontra
        rcases cuerpo_ge50_errorDict M st.nPrec st.nTmax st.df fq ahora _ hge hc with h | h
        · exact absurd h (by decide)
        · exact absurd h (by decide)
      | ok r =>
        rw [hc] at hcontra
        simp at hcontra

set_option maxRecDepth 100000 in
/-- Witness for C5 (amended): the 45-row history slices to fewer than 50
rows and yields exactly the insufficient-data payload. -/
theorem c5_datos_witness :
    (sliceHasta st45.df none).length < 50 ∧
    predecir M0 st45 7 0 none = (Salida.errorDict "Datos insuficientes", st45) :=
  ⟨by decide, (c5_datos M0 st45 7 0 none (Or.inr rfl)).1 (by decide)⟩

/-- Counterexample to C5 as stated: a state holding a prediction cached
today (day 7) answers a query whose slice is empty (far fewer than 50
rows) with the cached success payload, not with
`{"error": "Datos insuficientes"}`. -/
theorem c5_counterexample :
    (sliceHasta stCache.df (some 3)).length < 50 ∧
    (predecir M0 stCache 7 0 (some 3)).1 = Salida.ok r0 ∧
    Salida.ok r0 ≠ Salida.errorDict "Datos insuficientes" := by
  refine ⟨by decide, ?_, fun h => by cases h⟩
  rw [predecir_cacheHit M0 stCache 7 0 (some 3) r0 rfl rfl]
